import Mathlib

/-!
Verification of the matching pipeline of the pawsitive-match-finder-chat
frontend.  The definitions below are shallow embeddings of:

* the Dog value and its enums (src/types/dog.ts);
* the compatibility filter getRecommendations of the chat context
  (src/contexts/ChatContext.tsx, lines 304-329) and the two hook variants
  (src/hooks/useChatBot.ts lines 50-60, src/unnamed/part_005 lines 108-121);
* the explore/recommended delivery in handleUserMessage (ChatContext.tsx
  case 14 and its API-error fallback; part_005 case 13);
* the API result mapper mapApiDogToDog and bucketEnergy
  (ChatContext.tsx lines 59-141);
* the payload builder buildPayloadFromPreferences (ChatContext.tsx
  lines 143-219);
* the API client matchDogs and ApiError (src/unnamed/part_001).

The source filters the module-level sampleDogs catalog, a data file that is
not part of the sources here; every embedded filter therefore takes the
catalog as an explicit list argument and applies the source's predicate to
it unchanged.
-/

namespace PawMatch

/-- Dog size bucket of the frontend Dog type (src/types/dog.ts). -/
inductive Size where
  | small
  | medium
  | large
deriving DecidableEq, Repr

/-- Energy level bucket of the frontend Dog type (src/types/dog.ts). -/
inductive Energy where
  | low
  | medium
  | high
deriving DecidableEq, Repr

/-- Frontend Dog value (src/types/dog.ts).  The optional display-only
fields that no modelled operation reads (energyScore, ageYears, ageText,
ageMonths, weightLbs) are omitted. -/
structure Dog where
  id : String
  name : String
  breed : String
  age : String
  size : Size
  energyLevel : Energy
  goodWithKids : Bool
  goodWithPets : Bool
  description : String
  imageUrl : String
  photoUrls : Option (List String)
  shelterUrl : Option String
  traits : List String
deriving DecidableEq, Repr

/-- JavaScript truthiness of an optional boolean (undefined is falsy). -/
def jsTruthy : Option Bool → Bool
  | some b => b
  | none => false

/-- JavaScript `a || b` for an optional string a with string default b
(undefined and the empty string are falsy). -/
def jsOrS : Option String → String → String
  | some s, dflt => if s = "" then dflt else s
  | none, dflt => dflt

/-- JavaScript `a || b` where both operands are optional strings. -/
def jsOrO : Option String → Option String → Option String
  | some s, b => if s = "" then b else some s
  | none, b => b

namespace ChatContext

/-- UserPreferences of the chat context (src/contexts/ChatContext.tsx,
lines 6-28); every field is optional, multi-select fields are arrays. -/
structure UserPreferences where
  state : Option String := none
  location : Option String := none
  hasChildren : Option Bool := none
  childrenAges : Option String := none
  hasOtherPets : Option Bool := none
  petTypes : Option String := none
  homeType : Option String := none
  hasFencedYard : Option Bool := none
  neighborhoodNoise : Option String := none
  activityLevel : Option String := none
  hoursAlone : Option String := none
  sizePreference : Option (List String) := none
  agePreference : Option (List String) := none
  genderPreference : Option String := none
  needsGoodWithKids : Option Bool := none
  needsGoodWithDogs : Option Bool := none
  needsGoodWithCats : Option Bool := none
  hasAllergies : Option Bool := none
  trainingPreference : Option String := none
  openToSpecialNeeds : Option Bool := none
  requiresVaccinated : Option Bool := none
deriving DecidableEq, Repr

/-- The dog-size to selector-value map built inside getRecommendations
(ChatContext.tsx lines 309-314).  The source's `sizeMap[dog.size] || []`
fallback is unreachable because Dog.size is the closed three-value enum. -/
def dogSizeValues : Size → List String
  | .small => ["xs", "small"]
  | .medium => ["medium"]
  | .large => ["large", "xl"]

/-- The size guard of getRecommendations (ChatContext.tsx lines 307-317):
return false when a non-empty sizePreference array is present and no
selected value occurs in the dog's size bucket. -/
def sizeOk (prefs : UserPreferences) (dog : Dog) : Bool :=
  match prefs.sizePreference with
  | some sp => !(decide (0 < sp.length) && !(sp.any fun s => (dogSizeValues dog.size).contains s))
  | none => true

/-- The filter predicate of getRecommendations (ChatContext.tsx lines
305-327), the source's early-return chain written as a conjunction of the
negated guards, in source order. -/
def compat (prefs : UserPreferences) (dog : Dog) : Bool :=
  sizeOk prefs dog
  && !(jsTruthy prefs.needsGoodWithKids && !dog.goodWithKids)
  && !(jsTruthy prefs.needsGoodWithDogs && !dog.goodWithPets)
  && !(jsTruthy prefs.needsGoodWithCats && !dog.goodWithPets)
  && !(prefs.activityLevel == some "low" && dog.energyLevel == Energy.high)
  && !(prefs.activityLevel == some "high" && dog.energyLevel == Energy.low)

/-- getRecommendations of the chat context (ChatContext.tsx lines
304-329): filter the catalog with the compatibility predicate. -/
def getRecommendations (prefs : UserPreferences) (catalog : List Dog) : List Dog :=
  catalog.filter (compat prefs)

/-- Fallback recommended list on API error (ChatContext.tsx line 695):
the first ten compatibility matches. -/
def fallbackRecommended (prefs : UserPreferences) (catalog : List Dog) : List Dog :=
  (getRecommendations prefs catalog).take 10

/-- Fallback explore list on API error (ChatContext.tsx lines 693-695):
the first five catalog dogs whose id does not occur among the
compatibility matches. -/
def fallbackExplore (prefs : UserPreferences) (catalog : List Dog) : List Dog :=
  let ms := getRecommendations prefs catalog
  (catalog.filter fun d => !(ms.any fun m => m.id == d.id)).take 5

end ChatContext

namespace UseChatBot

/-- UserPreferences of the simple chat hook (src/hooks/useChatBot.ts,
lines 5-12); sizePreference is a single scalar here. -/
structure UserPreferences where
  livingSpace : Option String := none
  hasYard : Option Bool := none
  activityLevel : Option String := none
  hasKids : Option Bool := none
  hasPets : Option Bool := none
  sizePreference : Option String := none
deriving DecidableEq, Repr

/-- The filter predicate of getRecommendations (useChatBot.ts lines
50-60), the early-return chain as a conjunction of negated guards. -/
def compat (prefs : UserPreferences) (dog : Dog) : Bool :=
  !(prefs.sizePreference == some "small" && !(dog.size == Size.small))
  && !(prefs.sizePreference == some "large" && dog.size == Size.small)
  && !(jsTruthy prefs.hasKids && !dog.goodWithKids)
  && !(jsTruthy prefs.hasPets && !dog.goodWithPets)
  && !(prefs.activityLevel == some "low" && dog.energyLevel == Energy.high)
  && !(prefs.activityLevel == some "high" && dog.energyLevel == Energy.low)

/-- getRecommendations of the simple chat hook (useChatBot.ts lines
50-60). -/
def getRecommendations (prefs : UserPreferences) (catalog : List Dog) : List Dog :=
  catalog.filter (compat prefs)

end UseChatBot

namespace Part005

/-- UserPreferences of the unnamed chat hook (src/unnamed/part_005 lines
5-36); scalar size preference. -/
structure UserPreferences where
  location : Option String := none
  hasChildren : Option Bool := none
  childrenAges : Option String := none
  hasOtherPets : Option Bool := none
  petTypes : Option String := none
  homeType : Option String := none
  hasFencedYard : Option Bool := none
  neighborhoodNoise : Option String := none
  activityLevel : Option String := none
  hoursAlone : Option String := none
  sizePreference : Option String := none
  agePreference : Option String := none
  genderPreference : Option String := none
  needsGoodWithKids : Option Bool := none
  needsGoodWithDogs : Option Bool := none
  needsGoodWithCats : Option Bool := none
  hasAllergies : Option Bool := none
  trainingPreference : Option String := none
  openToSpecialNeeds : Option Bool := none
  requiresVaccinated : Option Bool := none
deriving DecidableEq, Repr

/-- JS truthiness of an optional string (undefined and "" are falsy),
used by the source's `if (prefs.sizePreference && ...)` guard. -/
def strTruthy : Option String → Bool
  | some s => !(s == "")
  | none => false

/-- The filter predicate of getRecommendations (part_005 lines 108-121):
a scalar size preference guarded by truthiness and an "any" check, then
the same kid/pet/activity guards as the other hooks. -/
def compat (prefs : UserPreferences) (dog : Dog) : Bool :=
  !(strTruthy prefs.sizePreference && !(prefs.sizePreference == some "any")
      && prefs.sizePreference == some "small" && !(dog.size == Size.small))
  && !(strTruthy prefs.sizePreference && !(prefs.sizePreference == some "any")
      && prefs.sizePreference == some "large" && dog.size == Size.small)
  && !(jsTruthy prefs.needsGoodWithKids && !dog.goodWithKids)
  && !(jsTruthy prefs.needsGoodWithDogs && !dog.goodWithPets)
  && !(jsTruthy prefs.needsGoodWithCats && !dog.goodWithPets)
  && !(prefs.activityLevel == some "low" && dog.energyLevel == Energy.high)
  && !(prefs.activityLevel == some "high" && dog.energyLevel == Energy.low)

/-- getRecommendations of the unnamed chat hook (part_005 lines
108-121). -/
def getRecommendations (prefs : UserPreferences) (catalog : List Dog) : List Dog :=
  catalog.filter (compat prefs)

/-- The explore pool of handleUserMessage case 13 (part_005 lines
425-432): the first five catalog dogs whose id is not among the
matches. -/
def explorePool (prefs : UserPreferences) (catalog : List Dog) : List Dog :=
  let ms := getRecommendations prefs catalog
  (catalog.filter fun d => !(ms.any fun m => m.id == d.id)).take 5

end Part005

/-- Prefix test on character lists, modelling the inner step of JavaScript
String.prototype.includes. -/
def hasPrefixL : List Char → List Char → Bool
  | _, [] => true
  | [], _ :: _ => false
  | c :: tl, p :: pt => c == p && hasPrefixL tl pt

/-- Infix test on character lists: some suffix starts with the pattern. -/
def hasInfixL : List Char → List Char → Bool
  | [], pat => hasPrefixL [] pat
  | c :: tl, pat => hasPrefixL (c :: tl) pat || hasInfixL tl pat

/-- JavaScript String.prototype.includes. -/
def strIncludes (s pat : String) : Bool :=
  hasInfixL s.data pat.data

/-- Digit-string value accumulator used by the Number() model. -/
def digitsVal (l : List Char) : Nat :=
  l.foldl (fun a c => a * 10 + (c.toNat - 48)) 0

/-- Whitespace trimming on a character list, modelling the trim JavaScript
Number() applies to string operands. -/
def trimChars (l : List Char) : List Char :=
  ((l.dropWhile Char.isWhitespace).reverse.dropWhile Char.isWhitespace).reverse

/-- JavaScript Number() on a string, modelled for trimmed plain decimal
literals (optional sign, integer digits, optional fraction); the empty or
all-whitespace string converts to 0, anything else (hex, exponents,
Infinity, garbage) to NaN, encoded as none. -/
def parseNumber (s : String) : Option ℚ :=
  let t := trimChars s.data
  if t = [] then some 0
  else
    let signBody : Bool × List Char :=
      match t with
      | '-' :: r => (true, r)
      | '+' :: r => (false, r)
      | r => (false, r)
    let intPart := signBody.2.takeWhile Char.isDigit
    let rest := signBody.2.dropWhile Char.isDigit
    let fracPart : Option (List Char) :=
      match rest with
      | [] => some []
      | '.' :: fr => if fr.all Char.isDigit then some fr else none
      | _ => none
    match fracPart with
    | none => none
    | some fr =>
      if intPart.isEmpty && fr.isEmpty then none
      else
        let mag : ℚ := (digitsVal intPart : ℚ) + (digitsVal fr : ℚ) / ((10 : ℚ) ^ fr.length)
        some (if signBody.1 then -mag else mag)

/-- A dynamically typed JSON field value as the mapper receives it:
a string, a finite number, null, or absent/undefined. -/
inductive JsVal where
  | str (s : String)
  | num (q : ℚ)
  | jsnull
  | undef
deriving DecidableEq, Repr

/-- JavaScript Number() coercion of a JsVal; none encodes NaN. -/
def jsNumber : JsVal → Option ℚ
  | .str s => parseNumber s
  | .num q => some q
  | .jsnull => some 0
  | .undef => none

mutual

/-- One-pass model of the global tag-stripping replace in mapApiDogToDog
(ChatContext.tsx line 88): delete every occurrence of a left angle
bracket, at least one non-right-bracket character, then a right angle
bracket; a left bracket with no such closing match is kept literally. -/
def stripAux : List Char → List Char
  | [] => []
  | c :: tl => if c = '<' then tagAux tl ['<'] else c :: stripAux tl
termination_by l => l.length

/-- Helper of stripAux: scanning after a left angle bracket with the
pending characters (reversed) in the accumulator. -/
def tagAux : List Char → List Char → List Char
  | [], acc => acc.reverse
  | c :: tl, acc =>
    if c = '>' then
      if 2 ≤ acc.length then stripAux tl
      else acc.reverse ++ '>' :: stripAux tl
    else tagAux tl (c :: acc)
termination_by l _ => l.length

end

/-- The regex replace of mapApiDogToDog on a whole string. -/
def stripTags (s : String) : String :=
  String.mk (stripAux s.data)

namespace Api

/-- PreferenceHardness of the API client (src/unnamed/part_001 line 4). -/
inductive Hardness where
  | must
  | strong
  | nice
deriving DecidableEq, Repr

/-- The dynamically typed preference target value; the payload builder
only ever supplies booleans, strings and numbers. -/
inductive PrefValue where
  | boolVal (b : Bool)
  | strVal (s : String)
  | numVal (q : ℚ)
deriving DecidableEq, Repr

/-- PreferencePayload of the API client (part_001 lines 6-12).  The
optional allow_unknown field is modelled as Bool because the payload
builder always materialises it via its `?? true` default. -/
structure PreferencePayload where
  field : String
  hardness : Hardness
  value : PrefValue
  weight : Option ℚ
  allow_unknown : Bool
deriving DecidableEq, Repr

/-- RecommendRequest of the API client (part_001 lines 14-18);
hard_filters is a string-keyed record to which the builder only ever adds
string values, modelled as a key-value list. -/
structure RecommendRequest where
  hard_filters : List (String × String)
  preferences : List PreferencePayload
  seen_dog_ids : List String
deriving DecidableEq, Repr

/-- The section tag of a RecommendResult (part_001 line 23). -/
inductive ResultSection where
  | best
  | explore
deriving DecidableEq, Repr

/-- The dog_data record of a RecommendResult, restricted to the fields
mapApiDogToDog reads; every field defaults to absent, so the all-default
value models the empty record the mapper substitutes for a missing
dog_data. -/
structure DogData where
  name : Option String := none
  size : Option String := none
  energy_level : JsVal := JsVal.undef
  description_html : Option String := none
  description : Option String := none
  breed_text : Option String := none
  breed_primary : Option String := none
  breed_secondary : Option String := none
  age_text : Option String := none
  age_group : Option String := none
  age_years : Option ℚ := none
  good_with_kids : Option Bool := none
  good_with_dogs : Option Bool := none
  good_with_cats : Option Bool := none
  house_trained : Option Bool := none
  hypoallergenic : Option Bool := none
  special_needs : Option Bool := none
  needs_foster : Option Bool := none
  tags : Option (List String) := none
  primary_photo_url : Option String := none
  photo_urls : Option (List String) := none
  url : Option String := none
  shelter_url : Option String := none
  petfinder_url : Option String := none
deriving DecidableEq, Repr

/-- RecommendResult of the API client (part_001 lines 20-28); the reasons
list, which no modelled operation reads, is omitted. -/
structure RecommendResult where
  dog_id : String
  name : String
  «section» : ResultSection
  score : ℚ
  completeness : ℚ
  dog_data : DogData
deriving DecidableEq, Repr

/-- The meta object of a RecommendResponse (part_001 lines 32-35). -/
structure ResponseMeta where
  total_found : Int
  prompt_trigger : Option String
deriving DecidableEq, Repr

/-- RecommendResponse of the API client (part_001 lines 30-36). -/
structure RecommendResponse where
  results : List RecommendResult
  meta : ResponseMeta
deriving DecidableEq, Repr

/-- The parsed JSON body of a fetch response, modelled by the two views
matchDogs takes of the untyped value: a success body castable to
RecommendResponse, an error body with an optional detail string, or any
other JSON value. -/
inductive JsonBody where
  | responseBody (r : RecommendResponse)
  | errorBody (detail : Option String)
  | otherBody
deriving DecidableEq, Repr

/-- The detail extraction `(body as \x7bdetail?: string\x7d)?.detail` of
matchDogs (part_001 line 89). -/
def detailOf : JsonBody → Option String
  | .errorBody d => d
  | _ => none

/-- ApiError of the API client (part_001 lines 38-47): message, HTTP
status and the parsed error body when one exists. -/
structure ApiError where
  message : String
  status : Nat
  body : Option JsonBody
deriving DecidableEq, Repr

/-- The observable part of a fetch Response as matchDogs uses it: the ok
flag, the status code, and the result of res.json(), with none encoding a
body that fails to parse as JSON. -/
structure FetchResponse where
  ok : Bool
  status : Nat
  parsed : Option JsonBody
deriving DecidableEq, Repr

/-- matchDogs of the API client (part_001 lines 68-94), as a function of
the fetch response: a body that fails to parse raises the parse ApiError;
a non-ok response raises an ApiError whose message is the error body's
detail when that is truthy, the generic message otherwise; an ok parsed
body is returned unchanged. -/
def matchDogs (res : FetchResponse) : Except ApiError JsonBody :=
  match res.parsed with
  | none => Except.error { message := "Failed to parse API response", status := res.status, body := none }
  | some b =>
    if res.ok then Except.ok b
    else Except.error
      { message := jsOrS (detailOf b) "Failed to fetch recommendations",
        status := res.status, body := some b }

end Api

namespace ChatContext

/-- bucketEnergy (ChatContext.tsx lines 59-71): bucket a dynamically
typed energy value by substring match on strings, otherwise by Number()
coercion with NaN mapping to undefined. -/
def bucketEnergy (value : JsVal) : Option Energy :=
  let fromString : Option Energy :=
    match value with
    | .str s =>
      let lower := String.mk (s.data.map Char.toLower)
      if strIncludes lower "low" then some Energy.low
      else if strIncludes lower "high" then some Energy.high
      else if strIncludes lower "medium" || strIncludes lower "moderate" then some Energy.medium
      else none
    | _ => none
  match fromString with
  | some e => some e
  | none =>
    match jsNumber value with
    | none => none
    | some num =>
      if num ≤ 3 then some Energy.low
      else if num ≤ 6 then some Energy.medium
      else some Energy.high

/-- The size-code map of mapApiDogToDog (ChatContext.tsx lines 75-84);
none models a key absent from the record. -/
def sizeCodeMap : String → Option Size
  | "XS" => some Size.small
  | "S" => some Size.small
  | "Small" => some Size.small
  | "M" => some Size.medium
  | "Medium" => some Size.medium
  | "L" => some Size.large
  | "Large" => some Size.large
  | "XL" => some Size.large
  | _ => none

/-- mapApiDogToDog (ChatContext.tsx lines 73-141): map an API result to
the frontend Dog value, with the source's fallback chains rendered by the
JavaScript-truthiness helpers. -/
def mapApiDogToDog (r : Api.RecommendResult) : Dog :=
  let dog := r.dog_data
  let sizeValue := (sizeCodeMap (jsOrS dog.size "")).getD Size.medium
  let energyValue := (bucketEnergy dog.energy_level).getD Energy.medium
  let description := jsOrS (dog.description_html.map stripTags)
    (jsOrS dog.description "This sweet pup is looking for a loving home!")
  let breed := jsOrS dog.breed_text (jsOrS dog.breed_primary (jsOrS dog.breed_secondary "Mixed Breed"))
  let age := jsOrS dog.age_text (jsOrS dog.age_group
    (match dog.age_years with
     | some y => toString y ++ " years"
     | none => "Age unknown"))
  let traits :=
    (if jsTruthy dog.good_with_kids then ["Kid friendly"] else [])
    ++ (if jsTruthy dog.good_with_dogs then ["Dog friendly"] else [])
    ++ (if jsTruthy dog.good_with_cats then ["Cat friendly"] else [])
    ++ (if jsTruthy dog.house_trained then ["House trained"] else [])
    ++ (if jsTruthy dog.hypoallergenic then ["Hypoallergenic"] else [])
    ++ (if jsTruthy dog.special_needs then ["Special needs"] else [])
    ++ (if jsTruthy dog.needs_foster then ["Needs foster"] else [])
    ++ (match dog.tags with
        | some tags => tags.take 4
        | none => [])
  let imageUrl := jsOrS dog.primary_photo_url
    (jsOrS (match dog.photo_urls with
            | some l => l.head?
            | none => none) "/placeholder.svg")
  let photoUrls := match dog.photo_urls with
    | some l => some (l.filter fun url => !(url == imageUrl))
    | none => none
  let shelterUrl := jsOrO dog.url (jsOrO dog.shelter_url dog.petfinder_url)
  { id := r.dog_id
    name := jsOrS dog.name (jsOrS (some r.name) "Sweet pup")
    breed := breed
    age := age
    size := sizeValue
    energyLevel := energyValue
    goodWithKids := jsTruthy dog.good_with_kids
    goodWithPets := jsTruthy dog.good_with_dogs || jsTruthy dog.good_with_cats
    description := description
    imageUrl := imageUrl
    photoUrls := photoUrls
    shelterUrl := shelterUrl
    traits := traits.take 6 }

/-- toSizeCodes (ChatContext.tsx lines 36-46). -/
def toSizeCodes (sizes : Option (List String)) : Option (List String) :=
  match sizes with
  | none => none
  | some l =>
    if l.length = 0 then none
    else some (l.map fun s =>
      if s = "xs" then "XS"
      else if s = "small" then "S"
      else if s = "medium" then "M"
      else if s = "large" then "L"
      else if s = "xl" then "XL"
      else s.toUpper)

/-- toAgeGroups (ChatContext.tsx lines 48-57). -/
def toAgeGroups (ages : Option (List String)) : Option (List String) :=
  match ages with
  | none => none
  | some l =>
    if l.length = 0 then none
    else some (l.map fun a =>
      if a = "puppy" then "Puppy"
      else if a = "young" then "Young"
      else if a = "adult" then "Adult"
      else if a = "senior" then "Senior"
      else a)

/-- The addPref closure of buildPayloadFromPreferences (ChatContext.tsx
lines 147-160): allow_unknown defaults to true when not supplied. -/
def addPref (fld : String) (h : Api.Hardness) (v : Api.PrefValue)
    (w : Option ℚ) (allowUnknown : Option Bool) : Api.PreferencePayload :=
  { field := fld, hardness := h, value := v, weight := w,
    allow_unknown := allowUnknown.getD true }

/-- buildPayloadFromPreferences (ChatContext.tsx lines 143-219), with the
preference list assembled block by block in the source's push order. -/
def buildPayloadFromPreferences (prefs : UserPreferences) : Api.RecommendRequest :=
  let hardFilters : List (String × String) :=
    (match prefs.state with
     | some s => if s = "" then [] else [("location_state", s.toUpper)]
     | none => [])
    ++ (match prefs.location with
        | some l => if l = "" then [] else [("location_label", l)]
        | none => [])
  let mustPrefs : List Api.PreferencePayload :=
    (if jsTruthy prefs.needsGoodWithKids then
      [addPref "good_with_kids" Api.Hardness.must (Api.PrefValue.boolVal true) none (some false)] else [])
    ++ (if jsTruthy prefs.needsGoodWithDogs then
      [addPref "good_with_dogs" Api.Hardness.must (Api.PrefValue.boolVal true) none (some false)] else [])
    ++ (if jsTruthy prefs.needsGoodWithCats then
      [addPref "good_with_cats" Api.Hardness.must (Api.PrefValue.boolVal true) none (some false)] else [])
    ++ (if prefs.openToSpecialNeeds == some false then
      [addPref "special_needs" Api.Hardness.must (Api.PrefValue.boolVal false) none (some false)] else [])
    ++ (if jsTruthy prefs.requiresVaccinated then
      [addPref "vaccinations_up_to_date" Api.Hardness.must (Api.PrefValue.boolVal true) none (some false),
       addPref "spayed_neutered" Api.Hardness.must (Api.PrefValue.boolVal true) none (some false)] else [])
  let sizePrefs : List Api.PreferencePayload :=
    match toSizeCodes prefs.sizePreference with
    | some codes => codes.map fun sz => addPref "size" Api.Hardness.nice (Api.PrefValue.strVal sz) none none
    | none => []
  let agePrefs : List Api.PreferencePayload :=
    match toAgeGroups prefs.agePreference with
    | some groups => groups.map fun ag => addPref "age_group" Api.Hardness.nice (Api.PrefValue.strVal ag) none none
    | none => []
  let genderPrefs : List Api.PreferencePayload :=
    match prefs.genderPreference with
    | some g =>
      if g = "" then []
      else [addPref "sex" Api.Hardness.nice
        (Api.PrefValue.strVal (if g = "male" then "Male" else if g = "female" then "Female" else g)) none none]
    | none => []
  let activityPrefs : List Api.PreferencePayload :=
    match prefs.activityLevel with
    | some a =>
      if a = "" then []
      else [addPref "energy_level" Api.Hardness.nice
        (Api.PrefValue.numVal (if a = "low" then 2 else if a = "high" then 8 else 5)) (some (1/2)) none]
    | none => []
  let homePrefs : List Api.PreferencePayload :=
    if prefs.homeType == some "apartment" then
      [addPref "apartment_ok" Api.Hardness.strong (Api.PrefValue.boolVal true) none none]
    else if jsTruthy prefs.hasFencedYard then
      [addPref "requires_fenced_yard" Api.Hardness.nice (Api.PrefValue.boolVal true) none none]
    else []
  let allergyPrefs : List Api.PreferencePayload :=
    if jsTruthy prefs.hasAllergies then
      [addPref "hypoallergenic" Api.Hardness.strong (Api.PrefValue.boolVal true) none none]
    else []
  let trainingPrefs : List Api.PreferencePayload :=
    if prefs.trainingPreference == some "trained" then
      [addPref "house_trained" Api.Hardness.strong (Api.PrefValue.boolVal true) none none]
    else []
  { hard_filters := hardFilters
    preferences := mustPrefs ++ sizePrefs ++ agePrefs ++ genderPrefs
      ++ activityPrefs ++ homePrefs ++ allergyPrefs ++ trainingPrefs
    seen_dog_ids := [] }

/-- The recommended list of the success path of handleUserMessage case 14
(ChatContext.tsx lines 660-661): mapped results whose result at the same
index has section best; the index pairing is rendered by zipping the
mapped list with the results. -/
def successRecommended (resp : Api.RecommendResponse) : List Dog :=
  let mapped := resp.results.map mapApiDogToDog
  ((mapped.zip resp.results).filter fun p => p.2.«section» == Api.ResultSection.best).map Prod.fst

/-- The explore list of the success path (ChatContext.tsx line 662). -/
def successExplore (resp : Api.RecommendResponse) : List Dog :=
  let mapped := resp.results.map mapApiDogToDog
  ((mapped.zip resp.results).filter fun p => p.2.«section» == Api.ResultSection.explore).map Prod.fst

/-- The pair handed to onRecommendations on the success path
(ChatContext.tsx line 664): the recommended list capped at ten, the
explore list uncapped. -/
def successDelivered (resp : Api.RecommendResponse) : List Dog × List Dog :=
  ((successRecommended resp).take 10, successExplore resp)

end ChatContext

/-- A concrete dog used to instantiate theorems: a medium-size,
medium-energy dog that is good with kids and pets. -/
def buddy : Dog :=
  { id := "d1", name := "Buddy", breed := "Mixed Breed", age := "2 years",
    size := Size.medium, energyLevel := Energy.medium,
    goodWithKids := true, goodWithPets := true,
    description := "A sweet pup", imageUrl := "/placeholder.svg",
    photoUrls := none, shelterUrl := none, traits := [] }

/-- A concrete dog that is not good with kids (for counterexamples). -/
def rex : Dog :=
  { id := "d2", name := "Rex", breed := "Mixed Breed", age := "4 years",
    size := Size.large, energyLevel := Energy.high,
    goodWithKids := false, goodWithPets := false,
    description := "A bouncy pup", imageUrl := "/placeholder.svg",
    photoUrls := none, shelterUrl := none, traits := [] }

/-- A concrete API result whose dog_data is the empty record, so every
tri-state compatibility field is unknown. -/
def unknownKidsResult : Api.RecommendResult :=
  { dog_id := "u1", name := "Misty", «section» := Api.ResultSection.best,
    score := 1/2, completeness := 0, dog_data := {} }

/-- A concrete best-section API result. -/
def bestResult : Api.RecommendResult :=
  { dog_id := "b1", name := "Ace", «section» := Api.ResultSection.best,
    score := 1, completeness := 1, dog_data := {} }

/-- A concrete explore-section API result with a different dog id. -/
def exploreResult : Api.RecommendResult :=
  { dog_id := "e1", name := "Zoe", «section» := Api.ResultSection.explore,
    score := 0, completeness := 0, dog_data := {} }

/-- A concrete response holding one best and one explore result. -/
def twoSectionResponse : Api.RecommendResponse :=
  { results := [bestResult, exploreResult],
    meta := { total_found := 2, prompt_trigger := none } }

/-- A concrete parsed success body. -/
def okBody : Api.JsonBody :=
  Api.JsonBody.responseBody { results := [], meta := { total_found := 0, prompt_trigger := none } }

/-- A concrete parsed error body carrying a detail message. -/
def errBody : Api.JsonBody :=
  Api.JsonBody.errorBody (some "invalid request")

/-- A concrete ok fetch response with a parsed body. -/
def okResponse : Api.FetchResponse :=
  { ok := true, status := 200, parsed := some okBody }

/-- A concrete 422 fetch response whose body parses and carries detail. -/
def badResponse : Api.FetchResponse :=
  { ok := false, status := 422, parsed := some errBody }

/-- A concrete API result whose energy_level is the string "Low energy":
not a finite number under Number() coercion, yet caught by the substring
branch of bucketEnergy. -/
def lowEnergyResult : Api.RecommendResult :=
  { dog_id := "n1", name := "Nori", «section» := Api.ResultSection.best,
    score := 0, completeness := 0,
    dog_data := { energy_level := JsVal.str "Low energy" } }

/-- A concrete preference record that fills every block of the payload
builder. -/
def fullPrefs : ChatContext.UserPreferences :=
  { state := some "ny", location := some "city", homeType := some "apartment",
    activityLevel := some "low", sizePreference := some ["small", "large"],
    agePreference := some ["puppy"], genderPreference := some "male",
    needsGoodWithKids := some true, needsGoodWithDogs := some true,
    needsGoodWithCats := some true, hasAllergies := some true,
    trainingPreference := some "trained", openToSpecialNeeds := some false,
    requiresVaccinated := some true }

end PawMatch

namespace PawMatch

/-- C1: every dog returned by the chat-context compatibility filter
satisfies each constraint present in the preferences: a needsGoodWithKids
constraint forces goodWithKids, needsGoodWithDogs or needsGoodWithCats
forces goodWithPets, a non-empty size-preference set intersects the dog's
size bucket, and a low (resp. high) activity level excludes high
(resp. low) energy dogs. -/
theorem chat_filter_satisfies_constraints
    (prefs : ChatContext.UserPreferences) (catalog : List Dog) (d : Dog)
    (hd : d ∈ ChatContext.getRecommendations prefs catalog) :
    (prefs.needsGoodWithKids = some true → d.goodWithKids = true)
    ∧ ((prefs.needsGoodWithDogs = some true ∨ prefs.needsGoodWithCats = some true) →
        d.goodWithPets = true)
    ∧ (∀ sp, prefs.sizePreference = some sp → sp ≠ [] →
        ∃ s ∈ sp, s ∈ ChatContext.dogSizeValues d.size)
    ∧ (prefs.activityLevel = some "low" → d.energyLevel ≠ Energy.high)
    ∧ (prefs.activityLevel = some "high" → d.energyLevel ≠ Energy.low) := by
  have hc : ChatContext.compat prefs d = true := List.of_mem_filter hd
  simp only [ChatContext.compat, Bool.and_eq_true, Bool.not_eq_true',
    Bool.and_eq_false_iff] at hc
  obtain ⟨⟨⟨⟨⟨hsize, hkids⟩, hdogs⟩, hcats⟩, hlow⟩, hhigh⟩ := hc
  refine ⟨?_, ?_, ?_, ?_, ?_⟩
  · intro hk
    rcases hkids with h | h
    · simp [jsTruthy, hk] at h
    · simpa using h
  · rintro (hp | hp)
    · rcases hdogs with h | h
      · simp [jsTruthy, hp] at h
      · simpa using h
    · rcases hcats with h | h
      · simp [jsTruthy, hp] at h
      · simpa using h
  · intro sp hsp hne
    have hlen : 0 < sp.length := List.length_pos.mpr hne
    simpa [ChatContext.sizeOk, hsp, hlen] using hsize
  · intro hl hhi
    rcases hlow with h | h
    · simp [hl] at h
    · simp [hhi] at h
  · intro hh hlo
    rcases hhigh with h | h
    · simp [hh] at h
    · simp [hlo] at h

/-- Witness for C1 at a concrete preference record and catalog. -/
theorem chat_filter_satisfies_constraints_witness :
    buddy.goodWithPets = true ∧ ∃ s ∈ ["medium", "large"],
      s ∈ ChatContext.dogSizeValues buddy.size := by
  have hmem : buddy ∈ ChatContext.getRecommendations
      { needsGoodWithDogs := some true, sizePreference := some ["medium", "large"] } [rex, buddy] := by
    decide
  have h := chat_filter_satisfies_constraints
    { needsGoodWithDogs := some true, sizePreference := some ["medium", "large"] }
    [rex, buddy] buddy hmem
  exact ⟨h.2.1 (Or.inl rfl), h.2.2.1 ["medium", "large"] rfl (by decide)⟩

/-- C5: with the empty preference record (every field undefined) the
chat-context compatibility filter returns the whole catalog unchanged and
in its original order. -/
theorem chat_filter_empty_prefs_identity (catalog : List Dog) :
    ChatContext.getRecommendations {} catalog = catalog := by
  apply List.filter_eq_self.mpr
  intro d _
  rfl

/-- C6: the chat-context compatibility filter is deterministic: two
invocations on equal preference records and equal catalogs produce
identical, identically ordered lists; the embedded function reads no
state besides its arguments. -/
theorem chat_filter_deterministic
    (p₁ p₂ : ChatContext.UserPreferences) (c₁ c₂ : List Dog)
    (hp : p₁ = p₂) (hc : c₁ = c₂) :
    ChatContext.getRecommendations p₁ c₁ = ChatContext.getRecommendations p₂ c₂ := by
  rw [hp, hc]

/-- Witness for C6 at concrete inputs. -/
theorem chat_filter_deterministic_witness :
    ChatContext.getRecommendations {} [buddy] = ChatContext.getRecommendations {} [buddy] :=
  chat_filter_deterministic {} {} [buddy] [buddy] rfl rfl

/-- C7 counterexample: under the scalar size preference "large" of the
useChatBot filter, the medium-size dog buddy passes and is returned,
although its size is not "large": it is false that only large dogs pass a
scalar preference of large, and false that the scalar check is an
equality test. -/
theorem scalar_size_large_passes_medium_dog :
    UseChatBot.getRecommendations { sizePreference := some "large" } [buddy] = [buddy]
    ∧ buddy.size ≠ Size.large := by
  refine ⟨rfl, ?_⟩
  decide

/-- C7 amended: the set-valued size check of the chat context passes iff
some selected value lies in the dog's size bucket (or the set is empty),
but the scalar size check of useChatBot is not an equality test: "small"
passes exactly the small dogs, "large" passes exactly the non-small dogs
(medium included), and any other scalar imposes no constraint. -/
theorem size_constraint_characterization :
    (∀ (sp : Option String) (d : Dog),
        UseChatBot.compat { sizePreference := sp } d = true ↔
          ((sp = some "small" → d.size = Size.small)
            ∧ (sp = some "large" → d.size ≠ Size.small)))
    ∧ (∀ (l : List String) (d : Dog),
        ChatContext.compat { sizePreference := some l } d = true ↔
          (l = [] ∨ ∃ s ∈ l, s ∈ ChatContext.dogSizeValues d.size)) := by
  constructor
  · intro sp d
    rcases sp with _ | s
    · simp [UseChatBot.compat, jsTruthy]
    · rcases hds : d.size <;>
        by_cases hsm : s = "small" <;>
          by_cases hlg : s = "large" <;>
            simp_all [UseChatBot.compat, jsTruthy]
  · intro l d
    rcases l with _ | ⟨a, tl⟩
    · simp [ChatContext.compat, ChatContext.sizeOk, jsTruthy]
    · simp [ChatContext.compat, ChatContext.sizeOk, jsTruthy]

/-- Witness for the amended C7 theorem: the characterization applied at
the scalar preference large and the medium dog buddy. -/
theorem size_constraint_characterization_witness :
    UseChatBot.compat { sizePreference := some "large" } buddy = true :=
  (size_constraint_characterization.1 (some "large") buddy).mpr
    ⟨fun h => absurd h (by decide), fun _ => by decide⟩

/-- C2 counterexample: under a needsGoodWithKids preference over the
one-dog catalog [rex], rex fails the compatibility filter (the match list
is empty) and yet is delivered in the fallback explore list: a dog the
filter excluded appears in the output's explore section. -/
theorem excluded_dog_appears_in_fallback_explore :
    ChatContext.compat { needsGoodWithKids := some true } rex = false
    ∧ ChatContext.getRecommendations { needsGoodWithKids := some true } [rex] = []
    ∧ rex ∈ ChatContext.fallbackExplore { needsGoodWithKids := some true } [rex] := by
  refine ⟨rfl, rfl, ?_⟩
  decide

/-- C2 amended: the explore lists are built from the complement of the
matches, not from them: every dog of the ChatContext fallback explore
list, and of the part_005 explore pool, comes from the catalog and fails
the compatibility predicate. -/
theorem explore_lists_consist_of_excluded_dogs :
    (∀ (prefs : ChatContext.UserPreferences) (catalog : List Dog) (d : Dog),
        d ∈ ChatContext.fallbackExplore prefs catalog →
          d ∈ catalog ∧ ChatContext.compat prefs d = false)
    ∧ (∀ (prefs : Part005.UserPreferences) (catalog : List Dog) (d : Dog),
        d ∈ Part005.explorePool prefs catalog →
          d ∈ catalog ∧ Part005.compat prefs d = false) := by
  constructor
  · intro prefs catalog d hd
    simp only [ChatContext.fallbackExplore, ChatContext.getRecommendations] at hd
    have hmem := List.mem_of_mem_take hd
    have hcat : d ∈ catalog := List.mem_of_mem_filter hmem
    refine ⟨hcat, ?_⟩
    have hq₀ := List.of_mem_filter hmem
    have hq : (!((catalog.filter (ChatContext.compat prefs)).any fun m => m.id == d.id)) = true := hq₀
    cases h : ChatContext.compat prefs d
    · rfl
    · exfalso
      have hdm : d ∈ catalog.filter (ChatContext.compat prefs) := List.mem_filter.mpr ⟨hcat, h⟩
      have hany : ((catalog.filter (ChatContext.compat prefs)).any fun m => m.id == d.id) = true :=
        List.any_eq_true.mpr ⟨d, hdm, by simp⟩
      rw [hany] at hq
      simp at hq
  · intro prefs catalog d hd
    simp only [Part005.explorePool, Part005.getRecommendations] at hd
    have hmem := List.mem_of_mem_take hd
    have hcat : d ∈ catalog := List.mem_of_mem_filter hmem
    refine ⟨hcat, ?_⟩
    have hq₀ := List.of_mem_filter hmem
    have hq : (!((catalog.filter (Part005.compat prefs)).any fun m => m.id == d.id)) = true := hq₀
    cases h : Part005.compat prefs d
    · rfl
    · exfalso
      have hdm : d ∈ catalog.filter (Part005.compat prefs) := List.mem_filter.mpr ⟨hcat, h⟩
      have hany : ((catalog.filter (Part005.compat prefs)).any fun m => m.id == d.id) = true :=
        List.any_eq_true.mpr ⟨d, hdm, by simp⟩
      rw [hany] at hq
      simp at hq

/-- C3 counterexample: the API result unknownKidsResult has an absent
good_with_kids field, yet the mapped Dog carries goodWithKids = false and
is excluded by the compatibility filter under a needsGoodWithKids
constraint: unknown is treated exactly like the negative case. -/
theorem unknown_kids_dog_defaulted_and_excluded :
    unknownKidsResult.dog_data.good_with_kids = none
    ∧ (ChatContext.mapApiDogToDog unknownKidsResult).goodWithKids = false
    ∧ ChatContext.getRecommendations { needsGoodWithKids := some true }
        [ChatContext.mapApiDogToDog unknownKidsResult] = [] := by
  refine ⟨rfl, rfl, rfl⟩

/-- C3 amended: mapApiDogToDog coerces an absent good_with_kids to false
(the Boolean coercion of line 133), and the compatibility filter excludes
any dog whose goodWithKids is false whenever needsGoodWithKids is set, so
a dog with unknown good_with_kids is excluded by that constraint. -/
theorem unknown_good_with_kids_coerced_to_false :
    (∀ r : Api.RecommendResult, r.dog_data.good_with_kids = none →
        (ChatContext.mapApiDogToDog r).goodWithKids = false)
    ∧ (∀ (prefs : ChatContext.UserPreferences) (catalog : List Dog) (d : Dog),
        prefs.needsGoodWithKids = some true → d.goodWithKids = false →
          d ∉ ChatContext.getRecommendations prefs catalog) := by
  constructor
  · intro r hr
    have : (ChatContext.mapApiDogToDog r).goodWithKids = jsTruthy r.dog_data.good_with_kids := rfl
    rw [this, hr]
    rfl
  · intro prefs catalog d hp hk hmem
    have hc : ChatContext.compat prefs d = true := List.of_mem_filter hmem
    simp [ChatContext.compat, hp, hk, jsTruthy] at hc

/-- Witness for the amended C3 theorem at concrete inputs. -/
theorem unknown_good_with_kids_coerced_to_false_witness :
    (ChatContext.mapApiDogToDog unknownKidsResult).goodWithKids = false
    ∧ rex ∉ ChatContext.getRecommendations { needsGoodWithKids := some true } [rex] := by
  constructor
  · exact unknown_good_with_kids_coerced_to_false.1 unknownKidsResult rfl
  · exact unknown_good_with_kids_coerced_to_false.2
      { needsGoodWithKids := some true } [rex] rex rfl rfl

/-- C8: matchDogs returns the parsed body exactly when the response is ok
and its body parses; a body that fails to parse raises the parse ApiError
with the HTTP status and no body; a non-ok response with a parsed body
carrying a non-empty detail string raises an ApiError whose message is
that detail, with the HTTP status and the body attached. -/
theorem matchDogs_ok_and_error_behaviour :
    (∀ (res : Api.FetchResponse) (b : Api.JsonBody),
        res.parsed = some b → res.ok = true → Api.matchDogs res = Except.ok b)
    ∧ (∀ res : Api.FetchResponse, res.parsed = none →
        Api.matchDogs res = Except.error
          { message := "Failed to parse API response", status := res.status, body := none })
    ∧ (∀ (res : Api.FetchResponse) (b : Api.JsonBody) (d : String),
        res.parsed = some b → res.ok = false → Api.detailOf b = some d → d ≠ "" →
          Api.matchDogs res = Except.error
            { message := d, status := res.status, body := some b }) := by
  refine ⟨?_, ?_, ?_⟩
  · intro res b hb hok
    simp [Api.matchDogs, hb, hok]
  · intro res hn
    simp [Api.matchDogs, hn]
  · intro res b d hb hok hd hne
    simp [Api.matchDogs, hb, hok, hd, jsOrS, hne]

/-- Witness for C8 at a concrete ok response and a concrete 422 response
with a detail string. -/
theorem matchDogs_ok_and_error_behaviour_witness :
    Api.matchDogs okResponse = Except.ok okBody
    ∧ Api.matchDogs badResponse = Except.error
        { message := "invalid request", status := 422, body := some errBody } := by
  constructor
  · exact matchDogs_ok_and_error_behaviour.1 okResponse okBody rfl rfl
  · exact matchDogs_ok_and_error_behaviour.2.2 badResponse errBody "invalid request"
      rfl rfl rfl (by decide)

/-- Helper: a pair drawn from the zip of a mapped list with the original
list consists of an element of the list and its image. -/
theorem mem_zip_map {α β : Type} (f : α → β) (l : List α) (p : β × α)
    (hp : p ∈ (l.map f).zip l) : p.1 = f p.2 ∧ p.2 ∈ l := by
  induction l with
  | nil => cases hp
  | cons a tl ih =>
    simp only [List.map_cons, List.zip_cons_cons, List.mem_cons] at hp
    rcases hp with h | h
    · subst h
      exact ⟨rfl, List.mem_cons_self a tl⟩
    · rcases ih h with ⟨h1, h2⟩
      exact ⟨h1, List.mem_cons_of_mem a h2⟩

/-- Helper: the mapped dog keeps the API result's dog id. -/
theorem mapApiDogToDog_id (r : Api.RecommendResult) :
    (ChatContext.mapApiDogToDog r).id = r.dog_id := rfl

/-- Helper: a dog of the success-path best list is the image of a result
of best section, and likewise for the explore list. -/
theorem mem_section_list {resp : Api.RecommendResponse} {sec : Api.ResultSection} {d : Dog}
    (hd : d ∈ (((resp.results.map ChatContext.mapApiDogToDog).zip resp.results).filter
        fun p => p.2.«section» == sec).map Prod.fst) :
    ∃ r ∈ resp.results, r.«section» = sec ∧ d = ChatContext.mapApiDogToDog r := by
  rcases List.mem_map.mp hd with ⟨p, hpmem, hpd⟩
  have hpz := List.mem_of_mem_filter hpmem
  have hsec := List.of_mem_filter hpmem
  rcases mem_zip_map ChatContext.mapApiDogToDog resp.results p hpz with ⟨h1, h2⟩
  refine ⟨p.2, h2, ?_, ?_⟩
  · simpa using hsec
  · rw [← hpd, h1]

/-- C4: the delivered sections respect their caps and are disjoint by dog
id.  On the success path the recommended list is capped at ten and, for a
response whose result ids are distinct (the catalog invariant), no dog id
occurs in both the recommended and the explore list; on the fallback path
the recommended list is capped at ten, the explore list at five, and the
two are disjoint by dog id unconditionally. -/
theorem sections_capped_and_disjoint :
    (∀ resp : Api.RecommendResponse, (ChatContext.successDelivered resp).1.length ≤ 10)
    ∧ (∀ resp : Api.RecommendResponse,
        (resp.results.map Api.RecommendResult.dog_id).Nodup →
        ∀ d₁ ∈ (ChatContext.successDelivered resp).1,
        ∀ d₂ ∈ (ChatContext.successDelivered resp).2, d₁.id ≠ d₂.id)
    ∧ (∀ (prefs : ChatContext.UserPreferences) (catalog : List Dog),
        (ChatContext.fallbackRecommended prefs catalog).length ≤ 10
        ∧ (ChatContext.fallbackExplore prefs catalog).length ≤ 5)
    ∧ (∀ (prefs : ChatContext.UserPreferences) (catalog : List Dog) (d₁ d₂ : Dog),
        d₁ ∈ ChatContext.fallbackRecommended prefs catalog →
        d₂ ∈ ChatContext.fallbackExplore prefs catalog → d₁.id ≠ d₂.id) := by
  refine ⟨?_, ?_, ?_, ?_⟩
  · intro resp
    simp only [ChatContext.successDelivered, List.length_take]
    exact Nat.min_le_left _ _
  · intro resp hnodup d₁ h₁ d₂ h₂
    have h₁m : d₁ ∈ ChatContext.successRecommended resp := by
      simp only [ChatContext.successDelivered] at h₁
      exact List.mem_of_mem_take h₁
    have h₂m : d₂ ∈ ChatContext.successExplore resp := h₂
    rcases mem_section_list (by simpa [ChatContext.successRecommended] using h₁m)
      with ⟨r₁, hr₁, hs₁, hd₁⟩
    rcases mem_section_list (by simpa [ChatContext.successExplore] using h₂m)
      with ⟨r₂, hr₂, hs₂, hd₂⟩
    have hrne : r₁ ≠ r₂ := by
      intro h
      rw [h, hs₂] at hs₁
      cases hs₁
    have hpair0 : (resp.results.map Api.RecommendResult.dog_id).Pairwise (· ≠ ·) := hnodup
    have hpair : resp.results.Pairwise fun a b => a.dog_id ≠ b.dog_id := by
      rw [List.pairwise_map] at hpair0
      exact hpair0
    have hsymm : Symmetric fun a b : Api.RecommendResult => a.dog_id ≠ b.dog_id := by
      intro a b hab hba
      exact hab hba.symm
    have hids : r₁.dog_id ≠ r₂.dog_id := hpair.forall hsymm hr₁ hr₂ hrne
    rw [hd₁, hd₂, mapApiDogToDog_id, mapApiDogToDog_id]
    exact hids
  · intro prefs catalog
    constructor
    · simp only [ChatContext.fallbackRecommended, List.length_take]
      exact Nat.min_le_left _ _
    · simp only [ChatContext.fallbackExplore, List.length_take]
      exact Nat.min_le_left _ _
  · intro prefs catalog d₁ d₂ h₁ h₂ heq
    simp only [ChatContext.fallbackRecommended, ChatContext.getRecommendations] at h₁
    simp only [ChatContext.fallbackExplore, ChatContext.getRecommendations] at h₂
    have h₁m : d₁ ∈ catalog.filter (ChatContext.compat prefs) := List.mem_of_mem_take h₁
    have h₂m := List.mem_of_mem_take h₂
    have hq₀ := List.of_mem_filter h₂m
    have hq : (!((catalog.filter (ChatContext.compat prefs)).any fun m => m.id == d₂.id)) = true := hq₀
    have hany : ((catalog.filter (ChatContext.compat prefs)).any fun m => m.id == d₂.id) = true :=
      List.any_eq_true.mpr ⟨d₁, h₁m, by simp [heq]⟩
    rw [hany] at hq
    simp at hq

/-- Witness for C4 at a concrete two-section response and a concrete
fallback delivery. -/
theorem sections_capped_and_disjoint_witness :
    (ChatContext.successDelivered twoSectionResponse).1.length ≤ 10
    ∧ (ChatContext.mapApiDogToDog bestResult).id ≠ (ChatContext.mapApiDogToDog exploreResult).id
    ∧ buddy.id ≠ rex.id := by
  refine ⟨sections_capped_and_disjoint.1 twoSectionResponse, ?_, ?_⟩
  · exact sections_capped_and_disjoint.2.1 twoSectionResponse (by decide)
      (ChatContext.mapApiDogToDog bestResult) (by decide)
      (ChatContext.mapApiDogToDog exploreResult) (by decide)
  · exact sections_capped_and_disjoint.2.2.2 { needsGoodWithKids := some true }
      [buddy, rex] buddy rex (by decide) (by decide)

/-- C9: every request built by buildPayloadFromPreferences has an empty
seen_dog_ids list, gives allow_unknown = false to every must preference
and allow_unknown = true to every strong or nice preference, and puts at
most the keys location_state and location_label into hard_filters. -/
theorem build_payload_invariants (prefs : ChatContext.UserPreferences) :
    (ChatContext.buildPayloadFromPreferences prefs).seen_dog_ids = []
    ∧ (∀ p ∈ (ChatContext.buildPayloadFromPreferences prefs).preferences,
        (p.hardness = Api.Hardness.must → p.allow_unknown = false)
        ∧ ((p.hardness = Api.Hardness.strong ∨ p.hardness = Api.Hardness.nice) →
            p.allow_unknown = true))
    ∧ (∀ kv ∈ (ChatContext.buildPayloadFromPreferences prefs).hard_filters,
        kv.1 = "location_state" ∨ kv.1 = "location_label") := by
  refine ⟨rfl, ?_, ?_⟩
  · simp only [ChatContext.buildPayloadFromPreferences, List.forall_mem_append]
    repeat' apply And.intro
    all_goals
      (intro p hp <;> (repeat' split at hp) <;>
        simp only [List.mem_map, List.mem_cons, List.mem_singleton,
          List.not_mem_nil, or_false] at hp <;>
        (first
          | (rcases hp with hp | hp <;> subst hp <;> simp [ChatContext.addPref] <;> done)
          | (obtain ⟨z, hz, rfl⟩ := hp <;> simp [ChatContext.addPref] <;> done)
          | (obtain rfl := hp <;> simp [ChatContext.addPref] <;> done)))
  · simp only [ChatContext.buildPayloadFromPreferences, List.forall_mem_append]
    constructor <;>
      intro kv hkv <;> (repeat' split at hkv) <;>
      simp only [List.mem_singleton, List.not_mem_nil] at hkv <;>
      (obtain rfl := hkv; simp)

/-- Witness for C9 at a concrete preference record that fills every
preference block. -/
theorem build_payload_invariants_witness :
    (ChatContext.buildPayloadFromPreferences fullPrefs).seen_dog_ids = []
    ∧ ((ChatContext.addPref "good_with_kids" Api.Hardness.must
          (Api.PrefValue.boolVal true) none (some false)).hardness = Api.Hardness.must →
        (ChatContext.addPref "good_with_kids" Api.Hardness.must
          (Api.PrefValue.boolVal true) none (some false)).allow_unknown = false)
    ∧ (("location_label", "city").1 = "location_state" ∨ ("location_label", "city").1 = "location_label") := by
  have h := build_payload_invariants fullPrefs
  refine ⟨h.1, ?_, ?_⟩
  · exact fun hm => ((h.2.1 _ (by decide)).1 hm)
  · exact h.2.2 ("location_label", "city") (by decide)

/-- Helper: a JavaScript or-chain with a non-empty default is non-empty. -/
theorem jsOrS_ne_of_ne {o : Option String} {dflt : String} (hd : dflt ≠ "") :
    jsOrS o dflt ≠ "" := by
  cases o with
  | none => simpa [jsOrS] using hd
  | some s =>
    simp only [jsOrS]
    split
    · exact hd
    · assumption

/-- Helper: the size field of a mapped dog. -/
theorem map_size_eq (r : Api.RecommendResult) :
    (ChatContext.mapApiDogToDog r).size
      = (ChatContext.sizeCodeMap (jsOrS r.dog_data.size "")).getD Size.medium := rfl

/-- Helper: the energy field of a mapped dog. -/
theorem map_energy_eq (r : Api.RecommendResult) :
    (ChatContext.mapApiDogToDog r).energyLevel
      = (ChatContext.bucketEnergy r.dog_data.energy_level).getD Energy.medium := rfl

/-- Helper: the name field of a mapped dog. -/
theorem map_name_eq (r : Api.RecommendResult) :
    (ChatContext.mapApiDogToDog r).name
      = jsOrS r.dog_data.name (jsOrS (some r.name) "Sweet pup") := rfl

/-- Helper: the description field of a mapped dog. -/
theorem map_description_eq (r : Api.RecommendResult) :
    (ChatContext.mapApiDogToDog r).description
      = jsOrS (r.dog_data.description_html.map stripTags)
          (jsOrS r.dog_data.description "This sweet pup is looking for a loving home!") := rfl

/-- Helper: the image field of a mapped dog. -/
theorem map_imageUrl_eq (r : Api.RecommendResult) :
    (ChatContext.mapApiDogToDog r).imageUrl
      = jsOrS r.dog_data.primary_photo_url
          (jsOrS (match r.dog_data.photo_urls with
                  | some l => l.head?
                  | none => none) "/placeholder.svg") := rfl

/-- C10 counterexample: the energy value "Low energy" is not a finite
number under Number() coercion (the model returns none for NaN), yet the
mapped energyLevel is low, not the medium default: the substring branch
of bucketEnergy fires before the numeric check, so a non-finite
energy_level does not always default to medium. -/
theorem nonfinite_energy_string_buckets_low :
    jsNumber lowEnergyResult.dog_data.energy_level = none
    ∧ (ChatContext.mapApiDogToDog lowEnergyResult).energyLevel = Energy.low := by
  constructor
  · decide
  · decide

/-- C10 amended: mapApiDogToDog is total with the documented defaults:
the mapped size is always one of the three buckets and is medium for a
missing or unrecognized size code; energyLevel is medium when
energy_level is absent, and more generally exactly when bucketEnergy
yields no bucket (a value that is not a finite number AND whose string
form matches none of the low/high/medium/moderate substrings — a
non-numeric string such as "Low energy" instead buckets by substring);
name, description and image are never empty and take the documented
fallback strings when the source fields are absent; the trait list never
exceeds six entries. -/
theorem mapApiDogToDog_total_defaults (r : Api.RecommendResult) :
    ((ChatContext.mapApiDogToDog r).size = Size.small
      ∨ (ChatContext.mapApiDogToDog r).size = Size.medium
      ∨ (ChatContext.mapApiDogToDog r).size = Size.large)
    ∧ (r.dog_data.size = none → (ChatContext.mapApiDogToDog r).size = Size.medium)
    ∧ (∀ s, r.dog_data.size = some s → ChatContext.sizeCodeMap s = none →
        (ChatContext.mapApiDogToDog r).size = Size.medium)
    ∧ (r.dog_data.energy_level = JsVal.undef →
        (ChatContext.mapApiDogToDog r).energyLevel = Energy.medium)
    ∧ (ChatContext.bucketEnergy r.dog_data.energy_level = none →
        (ChatContext.mapApiDogToDog r).energyLevel = Energy.medium)
    ∧ (ChatContext.mapApiDogToDog r).name ≠ ""
    ∧ (ChatContext.mapApiDogToDog r).description ≠ ""
    ∧ (ChatContext.mapApiDogToDog r).imageUrl ≠ ""
    ∧ (r.dog_data.name = none → r.name = "" →
        (ChatContext.mapApiDogToDog r).name = "Sweet pup")
    ∧ (r.dog_data.description_html = none → r.dog_data.description = none →
        (ChatContext.mapApiDogToDog r).description
          = "This sweet pup is looking for a loving home!")
    ∧ (r.dog_data.primary_photo_url = none → r.dog_data.photo_urls = none →
        (ChatContext.mapApiDogToDog r).imageUrl = "/placeholder.svg")
    ∧ (ChatContext.mapApiDogToDog r).traits.length ≤ 6 := by
  refine ⟨?_, ?_, ?_, ?_, ?_, ?_, ?_, ?_, ?_, ?_, ?_, ?_⟩
  · cases h : (ChatContext.mapApiDogToDog r).size
    · exact Or.inl rfl
    · exact Or.inr (Or.inl rfl)
    · exact Or.inr (Or.inr rfl)
  · intro h
    rw [map_size_eq, h]
    rfl
  · intro s hs hnone
    rw [map_size_eq, hs]
    simp only [jsOrS]
    split
    · rfl
    · rw [hnone]
      rfl
  · intro h
    rw [map_energy_eq, h]
    rfl
  · intro h
    rw [map_energy_eq, h]
    rfl
  · rw [map_name_eq]
    exact jsOrS_ne_of_ne (jsOrS_ne_of_ne (by decide))
  · rw [map_description_eq]
    exact jsOrS_ne_of_ne (jsOrS_ne_of_ne (by decide))
  · rw [map_imageUrl_eq]
    exact jsOrS_ne_of_ne (jsOrS_ne_of_ne (by decide))
  · intro h1 h2
    rw [map_name_eq, h1, h2]
    rfl
  · intro h1 h2
    rw [map_description_eq, h1, h2]
    rfl
  · intro h1 h2
    rw [map_imageUrl_eq, h1, h2]
    rfl
  · have htake : ∃ l : List String, (ChatContext.mapApiDogToDog r).traits = l.take 6 :=
      ⟨_, rfl⟩
    rcases htake with ⟨l, hl⟩
    rw [hl, List.length_take]
    exact Nat.min_le_left _ _

/-- Witness for the amended C10 theorem at the concrete result with an
empty dog_data record. -/
theorem mapApiDogToDog_total_defaults_witness :
    (ChatContext.mapApiDogToDog unknownKidsResult).size = Size.medium
    ∧ (ChatContext.mapApiDogToDog unknownKidsResult).energyLevel = Energy.medium
    ∧ (ChatContext.mapApiDogToDog unknownKidsResult).description
        = "This sweet pup is looking for a loving home!" := by
  obtain ⟨h1, h2, h3, h4, h5, h6, h7, h8, h9, h10, h11, h12⟩ :=
    mapApiDogToDog_total_defaults unknownKidsResult
  exact ⟨h2 rfl, h5 rfl, h10 rfl rfl⟩

/-- Witness for the amended C2 theorem at a concrete preference record,
catalog and explore member. -/
theorem explore_lists_consist_of_excluded_dogs_witness :
    (rex ∈ [rex] ∧ ChatContext.compat { needsGoodWithKids := some true } rex = false)
    ∧ (rex ∈ [rex] ∧ Part005.compat { needsGoodWithKids := some true } rex = false) := by
  constructor
  · exact explore_lists_consist_of_excluded_dogs.1
      { needsGoodWithKids := some true } [rex] rex (by decide)
  · exact explore_lists_consist_of_excluded_dogs.2
      { needsGoodWithKids := some true } [rex] rex (by decide)

end PawMatch
